import Mathlib

/-!
Verification of the expo-build-preflight rule engine.

The definitions below are a shallow embedding of the repository's two
validator scripts:

* `src/unnamed/part_003` — the direct-parse preflight script
  (`logStatus`, `validateAppJson`, `validateEasJson`,
  `checkLevelZeroBasics`, `checkLevelZeroPointFive`, `run`);
* `src/unnamed/part_001` — the compiled-resolve variant (only its
  target-SDK rule differs in a way the claims depend on);
* `src/expo-build-preflight/scripts/check_assets.js` — the asset
  validator (`checkFileExistence`, `checkDimensions`, `run`).

JavaScript truthiness is modelled explicitly: an absent field is `none`,
and the script's `!x` test on a string field is `none` or the empty
string; on a numeric field it is `none` or `0`.  Filesystem and probe
collaborators are modelled as explicit function arguments.  `process.exit`
is modelled with `Except`: an `.error (st, c)` result is an early exit
with code `c`, an `.ok st` result falls through to the summary, which
exits with 1 exactly when `hasFails` is set.
-/

set_option maxHeartbeats 1000000

namespace Preflight

/-- Severity tag of one report line (`[PASS]` / `[WARN]` / `[FAIL]`). -/
inductive Severity where
  | pass
  | warn
  | fail
  deriving DecidableEq, Repr

/-- Identifies which check emitted a finding (the call site of `logStatus`). -/
inductive RuleId where
  | pkgJson
  | expoDep
  | nodeModules
  | appJsonRead
  | easExistsR
  | projectId
  | lockfile
  | gitStatus
  | expoObj
  | androidPackage
  | iosBundle
  | scheme
  | runtimeVer
  | targetSdk
  | newArch
  | easJsonRead
  | prodProfile
  | autoIncrement
  | envVars
  | probeUnavailable
  | assetAppJsonExists
  | assetAppJsonFormat
  | assetExpoObj
  | globalIconExist
  | globalIconDim
  | globalIconMissing
  | splashExist
  | splashMissing
  | adaptiveFgExist
  | adaptiveFgDim
  | adaptiveFgMissing
  | adaptiveBgColor
  | adaptiveBgImageExist
  | adaptiveBgImageDim
  | adaptiveBgMissing
  | adaptiveNone
  | iosIconExist
  | iosIconDim
  deriving DecidableEq, Repr

/-- One emitted report line: severity, emitting rule, rendered message. -/
structure Finding where
  severity : Severity
  rule : RuleId
  message : String
  deriving DecidableEq, Repr

/-- Mutable script state: the lines printed so far and the `hasFails` flag. -/
structure St where
  findings : List Finding
  hasFails : Bool
  deriving DecidableEq, Repr

/-- Initial state (`let hasFails = false`, nothing printed). -/
def st0 : St := ⟨[], false⟩

/-- `logStatus(status, message)`: print one line and record a FAIL. -/
def logStatus (st : St) (sev : Severity) (r : RuleId) (msg : String) : St :=
  { findings := st.findings ++ [⟨sev, r, msg⟩],
    hasFails := st.hasFails || decide (sev = .fail) }

/-- The findings of `st` whose rule satisfies `q`. -/
def filterRule (q : RuleId → Bool) (st : St) : List Finding :=
  st.findings.filter fun f => q f.rule

/-- `runtimeVersion` JSON value: either a plain string or an object
(whose `policy` field may be absent). -/
inductive RuntimeVer where
  | strVal (s : String)
  | objVal (policy : Option String)
  deriving DecidableEq, Repr

/-- `expo.android` section of the configuration. -/
structure AndroidCfg where
  package : Option String := none
  targetSdkVersion : Option Int := none
  deriving DecidableEq, Repr

/-- `expo.ios` section of the configuration. -/
structure IosCfg where
  bundleIdentifier : Option String := none
  deriving DecidableEq, Repr

/-- The `expo` object of `app.json` (fields the script reads;
`projectId` stands for `expo.extra?.eas?.projectId`). -/
structure ExpoCfg where
  android : Option AndroidCfg := none
  ios : Option IosCfg := none
  scheme : Option String := none
  runtimeVersion : Option RuntimeVer := none
  newArchEnabled : Option Bool := none
  projectId : Option String := none
  deriving DecidableEq, Repr

/-- Parsed `app.json`. -/
structure AppJson where
  expo : Option ExpoCfg := none
  deriving DecidableEq, Repr

/-- One build profile of `eas.json` (`env` holds the keys of the env map). -/
structure Profile where
  autoIncrement : Option Bool := none
  env : Option (List String) := none
  deriving DecidableEq, Repr

/-- Parsed `eas.json`; `buildProduction` stands for `easJson?.build?.production`. -/
structure EasJson where
  buildProduction : Option Profile := none
  deriving DecidableEq, Repr

/-- Environment of one `part_003` run: filesystem facts, parse outcomes
(`Except` errors carry the exception message) and the git probe
(`none` when `execSync` throws). -/
structure World where
  packageJsonExists : Bool
  pkgHasExpoDep : Bool
  nodeModulesExists : Bool
  appJson : Except String AppJson
  easJsonExists : Bool
  easJson : Except String EasJson
  lockfileExists : Bool
  git : Option String
  deriving Repr

/-- JavaScript `String.prototype.trim` on the character list (used so
that concrete runs evaluate inside the kernel). -/
def trimChars (l : List Char) : List Char :=
  ((l.dropWhile Char.isWhitespace).reverse.dropWhile Char.isWhitespace).reverse

/-- The reserved-identifier regex `/^(com|br)\.(example|test|demo)\./i`:
case-insensitive test that the string starts with one of the six
reserved prefixes. -/
def invalidDomainTest (s : String) : Bool :=
  let l := s.data.map Char.toLower
  ["com", "br"].any fun a =>
    ["example", "test", "demo"].any fun b =>
      List.isPrefixOf (a ++ "." ++ b ++ ".").data l

/-- `part_003` lines 37-39: the android.package identity rule. -/
def packageCheck (p : Option String) (st : St) : St :=
  let missing := logStatus st .fail .androidPackage "Missing android.package."
  match p with
  | none => missing
  | some v =>
    if v = "" then missing
    else if invalidDomainTest v then
      logStatus st .fail .androidPackage ("Invalid/test android.package: " ++ v)
    else
      logStatus st .pass .androidPackage ("Valid android.package: " ++ v)

/-- `part_003` lines 41-43: the ios.bundleIdentifier identity rule. -/
def bundleCheck (p : Option String) (st : St) : St :=
  let missing := logStatus st .fail .iosBundle "Missing ios.bundleIdentifier."
  match p with
  | none => missing
  | some v =>
    if v = "" then missing
    else if invalidDomainTest v then
      logStatus st .fail .iosBundle ("Invalid/test ios.bundleIdentifier: " ++ v)
    else
      logStatus st .pass .iosBundle ("Valid ios.bundleIdentifier: " ++ v)

/-- `part_003` lines 46-47: the deep-linking scheme rule. -/
def schemeCheck (s : Option String) (st : St) : St :=
  let missing := logStatus st .warn .scheme
    "Missing \"scheme\" property. Deep links/OAuth might not work."
  match s with
  | none => missing
  | some v =>
    if v = "" then missing
    else logStatus st .pass .scheme ("Scheme configured: " ++ v)

/-- A modelled `JSON.stringify` for runtime-version values. -/
def rvRender : RuntimeVer → String
  | .strVal s => "\"" ++ s ++ "\""
  | .objVal none => "\x7b\x7d"
  | .objVal (some p) => "\x7b\"policy\":\"" ++ p ++ "\"\x7d"

/-- `part_003` lines 50-57: the runtimeVersion rule. -/
def runtimeCheck (rv : Option RuntimeVer) (st : St) : St :=
  let missing := logStatus st .warn .runtimeVer
    "Missing \"runtimeVersion\". Required if using EAS Update."
  let other : RuntimeVer → St := fun v => logStatus st .warn .runtimeVer
    ("runtimeVersion configured as \"" ++ rvRender v ++
      "\". Prefer \x7b\"policy\": \"fingerprint\"\x7d for safer OTAs.")
  match rv with
  | none => missing
  | some (.strVal s) =>
    if s = "" then missing else other (.strVal s)
  | some (.objVal p) =>
    if p = some "fingerprint" then
      logStatus st .pass .runtimeVer "runtimeVersion configured with fingerprint policy."
    else other (.objVal p)

/-- `part_003` lines 60-67: the target-SDK rule of the direct-parse
variant (`!targetSdk` treats an absent value and `0` alike). -/
def targetSdkCheck003 (sdk : Option Int) (st : St) : St :=
  let notSet := logStatus st .warn .targetSdk
    "targetSdkVersion not explicitly set. Expo will use the SDK default."
  match sdk with
  | none => notSet
  | some n =>
    if n = 0 then notSet
    else if n < 35 then
      logStatus st .fail .targetSdk
        ("targetSdkVersion is " ++ toString n ++ ". API 35+ is mandatory per recent Play Store rules.")
    else
      logStatus st .pass .targetSdk ("Valid targetSdkVersion: " ++ toString n)

/-- `part_001` lines 78-81: the target-SDK rule of the compiled-resolve
variant (same shape, but the absent/falsy case is a FAIL). -/
def targetSdkCheck001 (sdk : Option Int) (st : St) : St :=
  let missing := logStatus st .fail .targetSdk
    "targetSdkVersion is missing. API 35 is mandatory."
  match sdk with
  | none => missing
  | some n =>
    if n = 0 then missing
    else if n < 35 then
      logStatus st .fail .targetSdk
        ("targetSdkVersion is " ++ toString n ++ ". API 35 is mandatory.")
    else
      logStatus st .pass .targetSdk ("Valid targetSdkVersion: " ++ toString n)

/-- `part_003` lines 70-74: the new-architecture rule
(`expo.newArchEnabled === false`). -/
def newArchCheck (b : Option Bool) (st : St) : St :=
  if b = some false then
    logStatus st .warn .newArch
      "newArchEnabled is forced to false. Transitioning to Fabric/TurboModules is highly recommended in SDK 55+."
  else
    logStatus st .pass .newArch "New Architecture (newArchEnabled) is not disabled."

/-- `part_003` `validateAppJson`: the configuration rule block. -/
def validateAppJson (aj : AppJson) (st : St) : St :=
  match aj.expo with
  | none => logStatus st .fail .expoObj "\x27expo\x27 object not found in app.json."
  | some expo =>
    let st := packageCheck (expo.android.bind AndroidCfg.package) st
    let st := bundleCheck (expo.ios.bind IosCfg.bundleIdentifier) st
    let st := schemeCheck expo.scheme st
    let st := runtimeCheck expo.runtimeVersion st
    let st := targetSdkCheck003 (expo.android.bind AndroidCfg.targetSdkVersion) st
    newArchCheck expo.newArchEnabled st

/-- `part_003` `validateEasJson`: profile-existence gate, then the
auto-increment and env-vars rules. -/
def validateEasJson (ej : EasJson) (st : St) : St :=
  match ej.buildProduction with
  | none =>
    logStatus st .fail .prodProfile "\"build.production\" profile not found in eas.json."
  | some prof =>
    let st :=
      if prof.autoIncrement ≠ some true then
        logStatus st .fail .autoIncrement
          "build.production.autoIncrement is not set to true. Builds might overwrite existing versions in the stores."
      else
        logStatus st .pass .autoIncrement "autoIncrement is active in the production profile."
    let keys := prof.env.getD []
    if keys.isEmpty then
      logStatus st .warn .envVars
        "No environment variables (env) detected in the production profile. Ensure your base API is not pointing to localhost/staging."
    else
      logStatus st .pass .envVars ("Environment variables detected: " ++ String.intercalate ", " keys)

/-- `part_003` lines 116-121: the project-link-id rule. -/
def projectIdCheck (pid : Option String) (st : St) : St :=
  let missing := logStatus st .fail .projectId
    "Missing expo.extra.eas.projectId in app.json. You must run \"eas init\" to link this project to Expo."
  match pid with
  | none => missing
  | some v =>
    if v = "" then missing
    else logStatus st .pass .projectId ("Project linked to EAS (ID: " ++ v ++ ").")

/-- `part_003` lines 124-130: the lockfile rule. -/
def lockfileCheck (present : Bool) (st : St) : St :=
  if !present then
    logStatus st .fail .lockfile
      "No lockfile found (package-lock.json, yarn.lock, etc.). Cloud builds will be unpredictable. Please generate and commit a lockfile."
  else
    logStatus st .pass .lockfile "Lockfile detected."

/-- `part_003` lines 132-142: the git working-tree rule; `git = none`
models a throwing `execSync`. -/
def vcsCheck (git : Option String) (st : St) : St :=
  match git with
  | some out =>
    if (trimChars out.data).length > 0 then
      logStatus st .warn .gitStatus
        "You have uncommitted Git changes. EAS Build uploads your committed code by default. Uncommitted changes might not be included in the build!"
    else
      logStatus st .pass .gitStatus "Git working tree is clean."
  | none =>
    logStatus st .warn .gitStatus "Could not check Git status. Ensure you are in a valid Git repository."

/-- `part_003` `checkLevelZeroPointFive`: environment validation with
three fatal exits. -/
def checkLevelZeroPointFive (w : World) (st : St) : Except (St × Nat) St :=
  if !w.packageJsonExists then
    .error (logStatus st .fail .pkgJson "package.json not found. Are you in the right directory?", 1)
  else if !w.pkgHasExpoDep then
    .error (logStatus st .fail .expoDep
      "This does not appear to be an Expo project. Missing \"expo\" in dependencies.", 1)
  else
    let st := logStatus st .pass .expoDep
      "Expo project detected (found \"expo\" in package.json dependencies)."
    if !w.nodeModulesExists then
      .error (logStatus st .fail .nodeModules
        "node_modules not found. Please run npm/yarn/bun install before running the preflight check.", 1)
    else
      .ok (logStatus st .pass .nodeModules "node_modules directory found.")

/-- `part_003` `checkLevelZeroBasics`: eas.json-existence fatal exit,
then project-id, lockfile and git rules. -/
def checkLevelZeroBasics (w : World) (aj : AppJson) (st : St) : Except (St × Nat) St :=
  if !w.easJsonExists then
    .error (logStatus st .fail .easExistsR
      "eas.json not found! You must run \"eas build:configure\" first.", 1)
  else
    let st := logStatus st .pass .easExistsR "eas.json exists."
    let st := projectIdCheck (aj.expo.bind ExpoCfg.projectId) st
    let st := lockfileCheck w.lockfileExists st
    .ok (vcsCheck w.git st)

/-- `part_003` `run()` up to (not including) the final summary:
`.error` is an early `process.exit`. -/
def run003core (w : World) : Except (St × Nat) St :=
  match checkLevelZeroPointFive w st0 with
  | .error e => .error e
  | .ok st =>
    match w.appJson with
    | .error m =>
      .error (logStatus st .fail .appJsonRead ("Error reading app.json: " ++ m), 1)
    | .ok aj =>
      match checkLevelZeroBasics w aj st with
      | .error e => .error e
      | .ok st =>
        let st := validateAppJson aj st
        match w.easJson with
        | .error m => .ok (logStatus st .fail .easJsonRead ("Error reading eas.json: " ++ m))
        | .ok ej => .ok (validateEasJson ej st)

/-- `part_003` `run()`: final state, exit code, and whether the run was
aborted early (`process.exit` before the summary). -/
def run003 (w : World) : St × Nat × Bool :=
  match run003core w with
  | .error (st, c) => (st, c, true)
  | .ok st => (st, if st.hasFails then 1 else 0, false)

/-! ## The asset checker (`check_assets.js`) -/

/-- `expo.android.adaptiveIcon` of the asset configuration. -/
structure AdaptiveIconCfg where
  foregroundImage : Option String := none
  backgroundColor : Option String := none
  backgroundImage : Option String := none
  deriving DecidableEq, Repr

/-- `expo.splash` of the asset configuration. -/
structure SplashCfg where
  image : Option String := none
  deriving DecidableEq, Repr

/-- `expo.android` of the asset configuration. -/
structure AssetAndroidCfg where
  adaptiveIcon : Option AdaptiveIconCfg := none
  deriving DecidableEq, Repr

/-- `expo.ios` of the asset configuration. -/
structure AssetIosCfg where
  icon : Option String := none
  deriving DecidableEq, Repr

/-- The `expo` object as read by the asset checker. -/
structure AssetExpoCfg where
  icon : Option String := none
  splash : Option SplashCfg := none
  android : Option AssetAndroidCfg := none
  ios : Option AssetIosCfg := none
  deriving DecidableEq, Repr

/-- Parsed `app.json` for the asset checker. -/
structure AssetAppJson where
  expo : Option AssetExpoCfg := none
  deriving DecidableEq, Repr

/-- Environment of one `check_assets.js` run: `appJson = none` models a
parse error, `fs` is file existence, `dims` the dimension probe result
(`.error` models a throwing `sizeOf`).  Whether the probe is available
(the `image-size` require succeeded) is passed separately. -/
structure AssetWorld where
  appJsonExists : Bool
  appJson : Option AssetAppJson
  fs : String → Bool
  dims : String → Except String (Int × Int)

/-- `check_assets.js` `checkFileExistence`: one existence finding, plus
the resolved path (`none` mirrors the `return null`). -/
def checkFileExistence (fs : String → Bool) (st : St) (p name : String) (r : RuleId) :
    St × Option String :=
  if !fs p then
    (logStatus st .fail r ("[" ++ name ++ "] File not found at path: " ++ p), none)
  else
    (logStatus st .pass r ("[" ++ name ++ "] File exists: " ++ p), some p)

/-- `check_assets.js` `checkDimensions`: silently skipped when the probe
is unavailable or the path is `null`; otherwise one finding. -/
def checkDimensions (probe : Bool) (dims : String → Except String (Int × Int)) (st : St)
    (fp : Option String) (name : String) (r : RuleId) (rw rh : Int) : St :=
  match probe, fp with
  | false, _ => st
  | true, none => st
  | true, some p =>
    match dims p with
    | .error m =>
      logStatus st .fail r
        ("[" ++ name ++ "] Could not parse image dimensions. Ensure it is a valid image file. Error: " ++ m)
    | .ok (dw, dh) =>
      if dw ≠ rw ∨ dh ≠ rh then
        logStatus st .fail r
          ("[" ++ name ++ "] Invalid dimensions. Expected " ++ toString rw ++ "x" ++ toString rh ++
            ", got " ++ toString dw ++ "x" ++ toString dh ++ ".")
      else
        logStatus st .pass r
          ("[" ++ name ++ "] Dimensions are correct (" ++ toString rw ++ "x" ++ toString rh ++ ").")

/-- `check_assets.js` section 1: the global icon. -/
def iconSec (probe : Bool) (w : AssetWorld) (e : AssetExpoCfg) (st : St) : St :=
  let missing := logStatus st .fail .globalIconMissing "Missing global \"icon\" in app.json."
  match e.icon with
  | none => missing
  | some ic =>
    if ic = "" then missing
    else
      let r := checkFileExistence w.fs st ic "Global Icon" .globalIconExist
      checkDimensions probe w.dims r.1 r.2 "Global Icon" .globalIconDim 1024 1024

/-- `check_assets.js` section 2: the splash image (existence only). -/
def splashSec (w : AssetWorld) (e : AssetExpoCfg) (st : St) : St :=
  let missing := logStatus st .warn .splashMissing "No custom splash screen image configured."
  match e.splash with
  | none => missing
  | some sp =>
    match sp.image with
    | none => missing
    | some im =>
      if im = "" then missing
      else (checkFileExistence w.fs st im "Splash Screen" .splashExist).1

/-- `check_assets.js` lines 100-107: the adaptive-icon background step
(`backgroundColor` wins, then `backgroundImage`, else a FAIL). -/
def adaptiveBgCheck (probe : Bool) (fs : String → Bool)
    (dims : String → Except String (Int × Int)) (color image : Option String) (st : St) : St :=
  let neither := logStatus st .fail .adaptiveBgMissing
    "Android Adaptive Icon requires either a backgroundColor or a backgroundImage to prevent transparency issues (black backgrounds)."
  let imageBranch : Unit → St := fun _ =>
    match image with
    | none => neither
    | some im =>
      if im = "" then neither
      else
        let r := checkFileExistence fs st im "Android Background Image" .adaptiveBgImageExist
        checkDimensions probe dims r.1 r.2 "Android Background Image" .adaptiveBgImageDim 1024 1024
  match color with
  | none => imageBranch ()
  | some c =>
    if c = "" then imageBranch ()
    else logStatus st .pass .adaptiveBgColor ("Android Adaptive Icon background color is set: " ++ c)

/-- `check_assets.js` section 3: the Android adaptive icon. -/
def adaptiveSec (probe : Bool) (w : AssetWorld) (e : AssetExpoCfg) (st : St) : St :=
  match e.android.bind AssetAndroidCfg.adaptiveIcon with
  | none =>
    logStatus st .warn .adaptiveNone
      "No Android adaptiveIcon configured. The app will use the default square/circle crop."
  | some ai =>
    let fgMissing : St → St := fun st =>
      logStatus st .warn .adaptiveFgMissing "Missing foregroundImage for Android adaptive icon."
    let st :=
      match ai.foregroundImage with
      | none => fgMissing st
      | some fg =>
        if fg = "" then fgMissing st
        else
          let r := checkFileExistence w.fs st fg "Android Foreground Image" .adaptiveFgExist
          checkDimensions probe w.dims r.1 r.2 "Android Foreground Image" .adaptiveFgDim 1024 1024
    adaptiveBgCheck probe w.fs w.dims ai.backgroundColor ai.backgroundImage st

/-- `check_assets.js` section 4: the iOS-specific icon (only if declared). -/
def iosSec (probe : Bool) (w : AssetWorld) (e : AssetExpoCfg) (st : St) : St :=
  match e.ios.bind AssetIosCfg.icon with
  | none => st
  | some ic =>
    if ic = "" then st
    else
      let r := checkFileExistence w.fs st ic "iOS Specific Icon" .iosIconExist
      checkDimensions probe w.dims r.1 r.2 "iOS Specific Icon" .iosIconDim 1024 1024

/-- `check_assets.js` `run()` up to the summary, preceded by the
module-level probe `require` (one WARN when it is unavailable). -/
def runAssetsCore (probe : Bool) (w : AssetWorld) : Except (St × Nat) St :=
  let st :=
    if probe then st0
    else logStatus st0 .warn .probeUnavailable
      "The \x27image-size\x27 package is not installed. File dimensions will not be checked. Run \x27npm install --save-dev image-size\x27 for full validation."
  if !w.appJsonExists then
    .error (logStatus st .fail .assetAppJsonExists "app.json not found at app.json", 1)
  else
    match w.appJson with
    | none => .error (logStatus st .fail .assetAppJsonFormat "Invalid app.json format.", 1)
    | some aj =>
      match aj.expo with
      | none => .error (logStatus st .fail .assetExpoObj "Missing \"expo\" object in app.json.", 1)
      | some e =>
        let st := iconSec probe w e st
        let st := splashSec w e st
        let st := adaptiveSec probe w e st
        .ok (iosSec probe w e st)

/-- `check_assets.js` `run()`: final state, exit code, early-abort flag. -/
def runAssets (probe : Bool) (w : AssetWorld) : St × Nat × Bool :=
  match runAssetsCore probe w with
  | .error (st, c) => (st, c, true)
  | .ok st => (st, if st.hasFails then 1 else 0, false)

/-! ## Helper predicates and concrete worlds -/

/-- `hasFails` agrees with the findings printed so far. -/
def invSt (st : St) : Prop :=
  st.hasFails = st.findings.any fun f => decide (f.severity = .fail)

/-- A partial run result keeps the invariant, and every early exit
carries code 1. -/
def goodRes : Except (St × Nat) St → Prop
  | .error (st, c) => invSt st ∧ c = 1
  | .ok st => invSt st

/-- A fully populated, compliant `expo` configuration. -/
def expo1 : ExpoCfg :=
  { android := some { package := some "com.acme.app", targetSdkVersion := some 35 },
    ios := some { bundleIdentifier := some "com.acme.app" },
    scheme := some "myapp",
    runtimeVersion := some (.objVal (some "fingerprint")),
    newArchEnabled := some true,
    projectId := some "0f3a" }

/-- The concrete world used to instantiate `C1_verdict_and_exit_status`. -/
def w1 : World :=
  { packageJsonExists := true,
    pkgHasExpoDep := true,
    nodeModulesExists := true,
    appJson := Except.ok { expo := some expo1 },
    easJsonExists := true,
    easJson := Except.ok
      { buildProduction := some { autoIncrement := some true, env := some ["API_URL"] } },
    lockfileExists := true,
    git := some "" }

/-- Existence rules of the asset checker. -/
def exRule : RuleId → Bool
  | .globalIconExist | .splashExist | .adaptiveFgExist | .adaptiveBgImageExist | .iosIconExist => true
  | _ => false

/-- Dimension rules of the asset checker. -/
def dimRule : RuleId → Bool
  | .globalIconDim | .adaptiveFgDim | .adaptiveBgImageDim | .iosIconDim => true
  | _ => false

/-- The one finding `checkFileExistence` produces. -/
def existFinding (fs : String → Bool) (p name : String) (r : RuleId) : Finding :=
  if fs p then ⟨.pass, r, "[" ++ name ++ "] File exists: " ++ p⟩
  else ⟨.fail, r, "[" ++ name ++ "] File not found at path: " ++ p⟩

/-- The state component of a partial run result. -/
def resSt : Except (St × Nat) St → St
  | .error (st, _) => st
  | .ok st => st

/-- The concrete world used against C3: healthy project, valid app.json,
malformed eas.json. -/
def w3 : World :=
  { packageJsonExists := true,
    pkgHasExpoDep := true,
    nodeModulesExists := true,
    appJson := Except.ok { expo := some expo1 },
    easJsonExists := true,
    easJson := Except.error "Unexpected token in JSON",
    lockfileExists := true,
    git := some "" }

/-- The concrete world with a malformed `app.json`. -/
def w3a : World :=
  { packageJsonExists := true,
    pkgHasExpoDep := true,
    nodeModulesExists := true,
    appJson := Except.error "Unexpected end of JSON input",
    easJsonExists := true,
    easJson := Except.ok { buildProduction := none },
    lockfileExists := true,
    git := some "" }

/-- The concrete world with no `package.json`. -/
def wEnv1 : World :=
  { packageJsonExists := false,
    pkgHasExpoDep := false,
    nodeModulesExists := false,
    appJson := Except.error "ENOENT",
    easJsonExists := false,
    easJson := Except.error "ENOENT",
    lockfileExists := false,
    git := none }

/-- The concrete world whose `package.json` lacks the `expo` dependency. -/
def wEnv2 : World :=
  { packageJsonExists := true,
    pkgHasExpoDep := false,
    nodeModulesExists := false,
    appJson := Except.error "ENOENT",
    easJsonExists := false,
    easJson := Except.error "ENOENT",
    lockfileExists := false,
    git := none }

/-- The concrete world with no `node_modules` directory. -/
def wEnv3 : World :=
  { packageJsonExists := true,
    pkgHasExpoDep := true,
    nodeModulesExists := false,
    appJson := Except.error "ENOENT",
    easJsonExists := false,
    easJson := Except.error "ENOENT",
    lockfileExists := false,
    git := none }

/-- The concrete world with a valid `app.json` but no `eas.json` file. -/
def wEasMissing : World :=
  { packageJsonExists := true,
    pkgHasExpoDep := true,
    nodeModulesExists := true,
    appJson := Except.ok { expo := some expo1 },
    easJsonExists := false,
    easJson := Except.error "ENOENT",
    lockfileExists := true,
    git := some "" }

/-- The concrete world used to instantiate C4: everything healthy except
that `eas.json` has no `build.production` profile. -/
def w4 : World :=
  { packageJsonExists := true,
    pkgHasExpoDep := true,
    nodeModulesExists := true,
    appJson := Except.ok { expo := some expo1 },
    easJsonExists := true,
    easJson := Except.ok { buildProduction := none },
    lockfileExists := true,
    git := some "" }

/-! ## Basic lemmas about `logStatus` -/

theorem findings_log (st : St) (sev : Severity) (r : RuleId) (m : String) :
    (logStatus st sev r m).findings = st.findings ++ [⟨sev, r, m⟩] := rfl

theorem invSt_st0 : invSt st0 := rfl

theorem invSt_log {st : St} (h : invSt st) (sev : Severity) (r : RuleId) (m : String) :
    invSt (logStatus st sev r m) := by
  simp only [invSt, logStatus, List.any_append, List.any_cons, List.any_nil] at *
  simp [h]

theorem filterRule_log (q : RuleId → Bool) (st : St) (sev : Severity) (r : RuleId) (m : String) :
    filterRule q (logStatus st sev r m) =
      filterRule q st ++ if q r then [⟨sev, r, m⟩] else [] := by
  simp only [filterRule, logStatus, List.filter_append]
  split <;> simp_all [List.filter]

theorem filterRule_log_neg (q : RuleId → Bool) {r : RuleId} (hq : q r = false)
    (st : St) (sev : Severity) (m : String) :
    filterRule q (logStatus st sev r m) = filterRule q st := by
  simp [filterRule_log, hq]

/-! ## Per-check lemmas: rules emitted and invariant preservation -/

theorem filterRule_packageCheck (q : RuleId → Bool) (hq : q .androidPackage = false)
    (p : Option String) (st : St) :
    filterRule q (packageCheck p st) = filterRule q st := by
  cases p with
  | none => simp [packageCheck, filterRule_log, hq]
  | some v =>
    by_cases h1 : v = "" <;> by_cases h2 : invalidDomainTest v <;>
      simp [packageCheck, filterRule_log, hq, h1, h2]

theorem filterRule_bundleCheck (q : RuleId → Bool) (hq : q .iosBundle = false)
    (p : Option String) (st : St) :
    filterRule q (bundleCheck p st) = filterRule q st := by
  cases p with
  | none => simp [bundleCheck, filterRule_log, hq]
  | some v =>
    by_cases h1 : v = "" <;> by_cases h2 : invalidDomainTest v <;>
      simp [bundleCheck, filterRule_log, hq, h1, h2]

theorem filterRule_schemeCheck (q : RuleId → Bool) (hq : q .scheme = false)
    (s : Option String) (st : St) :
    filterRule q (schemeCheck s st) = filterRule q st := by
  cases s with
  | none => simp [schemeCheck, filterRule_log, hq]
  | some v => by_cases h1 : v = "" <;> simp [schemeCheck, filterRule_log, hq, h1]

theorem filterRule_runtimeCheck (q : RuleId → Bool) (hq : q .runtimeVer = false)
    (rv : Option RuntimeVer) (st : St) :
    filterRule q (runtimeCheck rv st) = filterRule q st := by
  match rv with
  | none => simp [runtimeCheck, filterRule_log, hq]
  | some (.strVal s) => by_cases h1 : s = "" <;> simp [runtimeCheck, filterRule_log, hq, h1]
  | some (.objVal p) =>
    by_cases h1 : p = some "fingerprint" <;> simp [runtimeCheck, filterRule_log, hq, h1]

theorem filterRule_targetSdkCheck003 (q : RuleId → Bool) (hq : q .targetSdk = false)
    (sdk : Option Int) (st : St) :
    filterRule q (targetSdkCheck003 sdk st) = filterRule q st := by
  match sdk with
  | none => simp [targetSdkCheck003, filterRule_log, hq]
  | some n =>
    by_cases h1 : n = 0 <;> by_cases h2 : n < 35 <;>
      simp [targetSdkCheck003, filterRule_log, hq, h1, h2]

theorem filterRule_targetSdkCheck003_len (q : RuleId → Bool) (hq : q .targetSdk = true)
    (sdk : Option Int) (st : St) :
    (filterRule q (targetSdkCheck003 sdk st)).length = (filterRule q st).length + 1 := by
  match sdk with
  | none => simp [targetSdkCheck003, filterRule_log, hq]
  | some n =>
    by_cases h1 : n = 0 <;> by_cases h2 : n < 35 <;>
      simp [targetSdkCheck003, filterRule_log, hq, h1, h2]

theorem filterRule_newArchCheck (q : RuleId → Bool) (hq : q .newArch = false)
    (b : Option Bool) (st : St) :
    filterRule q (newArchCheck b st) = filterRule q st := by
  by_cases h1 : b = some false <;> simp [newArchCheck, filterRule_log, hq, h1]

theorem filterRule_projectIdCheck (q : RuleId → Bool) (hq : q .projectId = false)
    (pid : Option String) (st : St) :
    filterRule q (projectIdCheck pid st) = filterRule q st := by
  cases pid with
  | none => simp [projectIdCheck, filterRule_log, hq]
  | some v => by_cases h1 : v = "" <;> simp [projectIdCheck, filterRule_log, hq, h1]

theorem filterRule_lockfileCheck (q : RuleId → Bool) (hq : q .lockfile = false)
    (present : Bool) (st : St) :
    filterRule q (lockfileCheck present st) = filterRule q st := by
  cases present <;> simp [lockfileCheck, filterRule_log, hq]

theorem filterRule_vcsCheck (q : RuleId → Bool) (hq : q .gitStatus = false)
    (git : Option String) (st : St) :
    filterRule q (vcsCheck git st) = filterRule q st := by
  cases git with
  | none => simp [vcsCheck, filterRule_log, hq]
  | some out => by_cases h1 : (trimChars out.data).length > 0 <;> simp [vcsCheck, filterRule_log, hq, h1]

theorem filterRule_validateAppJson (q : RuleId → Bool)
    (h1 : q .expoObj = false) (h2 : q .androidPackage = false) (h3 : q .iosBundle = false)
    (h4 : q .scheme = false) (h5 : q .runtimeVer = false) (h6 : q .targetSdk = false)
    (h7 : q .newArch = false) (aj : AppJson) (st : St) :
    filterRule q (validateAppJson aj st) = filterRule q st := by
  cases haj : aj.expo with
  | none => simp [validateAppJson, haj, filterRule_log, h1]
  | some e =>
    simp [validateAppJson, haj,
      filterRule_newArchCheck q h7, filterRule_targetSdkCheck003 q h6,
      filterRule_runtimeCheck q h5, filterRule_schemeCheck q h4,
      filterRule_bundleCheck q h3, filterRule_packageCheck q h2]

theorem invSt_packageCheck {st : St} (h : invSt st) (p : Option String) :
    invSt (packageCheck p st) := by
  cases p with
  | none => exact invSt_log h ..
  | some v =>
    simp only [packageCheck]
    split
    · exact invSt_log h ..
    · split
      · exact invSt_log h ..
      · exact invSt_log h ..

theorem invSt_bundleCheck {st : St} (h : invSt st) (p : Option String) :
    invSt (bundleCheck p st) := by
  cases p with
  | none => exact invSt_log h ..
  | some v =>
    simp only [bundleCheck]
    split
    · exact invSt_log h ..
    · split
      · exact invSt_log h ..
      · exact invSt_log h ..

theorem invSt_schemeCheck {st : St} (h : invSt st) (s : Option String) :
    invSt (schemeCheck s st) := by
  cases s with
  | none => exact invSt_log h ..
  | some v =>
    simp only [schemeCheck]
    split
    · exact invSt_log h ..
    · exact invSt_log h ..

theorem invSt_runtimeCheck {st : St} (h : invSt st) (rv : Option RuntimeVer) :
    invSt (runtimeCheck rv st) := by
  match rv with
  | none => exact invSt_log h ..
  | some (.strVal s) =>
    simp only [runtimeCheck]
    split
    · exact invSt_log h ..
    · exact invSt_log h ..
  | some (.objVal p) =>
    simp only [runtimeCheck]
    split
    · exact invSt_log h ..
    · exact invSt_log h ..

theorem invSt_targetSdkCheck003 {st : St} (h : invSt st) (sdk : Option Int) :
    invSt (targetSdkCheck003 sdk st) := by
  match sdk with
  | none => exact invSt_log h ..
  | some n =>
    simp only [targetSdkCheck003]
    split
    · exact invSt_log h ..
    · split
      · exact invSt_log h ..
      · exact invSt_log h ..

theorem invSt_newArchCheck {st : St} (h : invSt st) (b : Option Bool) :
    invSt (newArchCheck b st) := by
  simp only [newArchCheck]
  split
  · exact invSt_log h ..
  · exact invSt_log h ..

theorem invSt_validateAppJson {st : St} (h : invSt st) (aj : AppJson) :
    invSt (validateAppJson aj st) := by
  cases haj : aj.expo with
  | none => simp only [validateAppJson, haj]; exact invSt_log h ..
  | some e =>
    simp only [validateAppJson, haj]
    exact invSt_newArchCheck
      (invSt_targetSdkCheck003
        (invSt_runtimeCheck (invSt_schemeCheck (invSt_bundleCheck (invSt_packageCheck h _) _) _) _) _) _

theorem invSt_validateEasJson {st : St} (h : invSt st) (ej : EasJson) :
    invSt (validateEasJson ej st) := by
  cases hej : ej.buildProduction with
  | none => simp only [validateEasJson, hej]; exact invSt_log h ..
  | some prof =>
    simp only [validateEasJson, hej]
    split
    · split
      · exact invSt_log (invSt_log h ..) ..
      · exact invSt_log (invSt_log h ..) ..
    · split
      · exact invSt_log (invSt_log h ..) ..
      · exact invSt_log (invSt_log h ..) ..

theorem invSt_projectIdCheck {st : St} (h : invSt st) (pid : Option String) :
    invSt (projectIdCheck pid st) := by
  cases pid with
  | none => exact invSt_log h ..
  | some v =>
    simp only [projectIdCheck]
    split
    · exact invSt_log h ..
    · exact invSt_log h ..

theorem invSt_lockfileCheck {st : St} (h : invSt st) (present : Bool) :
    invSt (lockfileCheck present st) := by
  simp only [lockfileCheck]
  split
  · exact invSt_log h ..
  · exact invSt_log h ..

theorem invSt_vcsCheck {st : St} (h : invSt st) (git : Option String) :
    invSt (vcsCheck git st) := by
  cases git with
  | none => exact invSt_log h ..
  | some out =>
    simp only [vcsCheck]
    split
    · exact invSt_log h ..
    · exact invSt_log h ..

/-! ## Run-level facts for `part_003` -/

theorem goodRes_lv05 {st : St} (h : invSt st) (w : World) :
    goodRes (checkLevelZeroPointFive w st) := by
  simp only [checkLevelZeroPointFive]
  split
  · exact ⟨invSt_log h .., rfl⟩
  · split
    · exact ⟨invSt_log h .., rfl⟩
    · split
      · exact ⟨invSt_log (invSt_log h ..) .., rfl⟩
      · exact invSt_log (invSt_log h ..) ..

theorem goodRes_basics {st : St} (h : invSt st) (w : World) (aj : AppJson) :
    goodRes (checkLevelZeroBasics w aj st) := by
  simp only [checkLevelZeroBasics]
  split
  · exact ⟨invSt_log h .., rfl⟩
  · exact invSt_vcsCheck (invSt_lockfileCheck (invSt_projectIdCheck (invSt_log h ..) _) _) _

theorem goodRes_run003core (w : World) : goodRes (run003core w) := by
  simp only [run003core]
  have g5 := goodRes_lv05 invSt_st0 w
  cases h5 : checkLevelZeroPointFive w st0 with
  | error e => rw [h5] at g5; exact g5
  | ok st =>
    rw [h5] at g5
    dsimp only
    cases ha : w.appJson with
    | error m => exact ⟨invSt_log g5 .., rfl⟩
    | ok aj =>
      dsimp only
      have gb := goodRes_basics g5 w aj
      cases hb : checkLevelZeroBasics w aj st with
      | error e => rw [hb] at gb; exact gb
      | ok st2 =>
        rw [hb] at gb
        dsimp only
        cases he : w.easJson with
        | error m => exact invSt_log (invSt_validateAppJson gb aj) ..
        | ok ej => exact invSt_validateEasJson (invSt_validateAppJson gb aj) ej

/-! ## Claims -/

/-- C1: for every `part_003` run, the `hasFails` verdict flag is set iff
some emitted finding has severity FAIL, and the termination status is 0
iff no finding has severity FAIL and no fatal early exit occurred (WARN
findings therefore never change the verdict or the status). -/
theorem C1_verdict_and_exit_status (w : World) :
    ((run003 w).1.hasFails = true ↔ ∃ f ∈ (run003 w).1.findings, f.severity = .fail) ∧
    ((run003 w).2.1 = 0 ↔
      (∀ f ∈ (run003 w).1.findings, f.severity ≠ .fail) ∧ (run003 w).2.2 = false) := by
  have g := goodRes_run003core w
  unfold run003
  cases h : run003core w with
  | error e =>
    obtain ⟨st, c⟩ := e
    rw [h] at g
    obtain ⟨hi, hc⟩ := g
    subst hc
    constructor
    · rw [hi]
      simp [List.any_eq_true]
    · simp
  | ok st =>
    rw [h] at g
    dsimp only
    have hiff : st.hasFails = true ↔ ∃ f ∈ st.findings, f.severity = .fail := by
      rw [g]
      simp [List.any_eq_true]
    refine ⟨hiff, ?_⟩
    cases hb : st.hasFails with
    | true =>
      obtain ⟨f, hf, hsev⟩ := hiff.mp hb
      simp only [hb, if_true]
      constructor
      · intro h0; exact absurd h0 one_ne_zero
      · rintro ⟨hall, -⟩
        exact absurd hsev (hall f hf)
    | false =>
      simp only [hb, if_false]
      have hno : ∀ f ∈ st.findings, f.severity ≠ .fail := by
        intro f hf hsev
        have h1 := hiff.mpr ⟨f, hf, hsev⟩
        rw [hb] at h1
        exact Bool.false_ne_true h1
      exact ⟨fun _ => ⟨hno, trivial⟩, fun _ => rfl⟩

/-- Witness for C1 at a concrete, fully evaluated run. -/
theorem C1_witness :
    ((run003 w1).1.hasFails = true ↔ ∃ f ∈ (run003 w1).1.findings, f.severity = .fail) ∧
    ((run003 w1).2.1 = 0 ↔
      (∀ f ∈ (run003 w1).1.findings, f.severity ≠ .fail) ∧ (run003 w1).2.2 = false) :=
  C1_verdict_and_exit_status w1

/-! ## Lemmas for the asset checker -/

theorem filterRule_exist (q : RuleId → Bool) (fs : String → Bool) (st : St) (p name : String)
    (r : RuleId) :
    filterRule q (checkFileExistence fs st p name r).1 =
      filterRule q st ++ (if q r = true then [existFinding fs p name r] else []) := by
  unfold checkFileExistence existFinding
  cases h : fs p <;> cases hq : q r <;>
    simp [h, hq, filterRule_log]

theorem exist_snd (fs : String → Bool) (st : St) (p name : String) (r : RuleId) :
    (checkFileExistence fs st p name r).2 = if fs p then some p else none := by
  unfold checkFileExistence
  cases h : fs p <;> simp [h]

theorem checkDim_false (dims : String → Except String (Int × Int)) (st : St)
    (fp : Option String) (name : String) (r : RuleId) (rw rh : Int) :
    checkDimensions false dims st fp name r rw rh = st := rfl

theorem filterRule_checkDim (q : RuleId → Bool) {r : RuleId} (hq : q r = false)
    (probe : Bool) (dims : String → Except String (Int × Int)) (st : St) (fp : Option String)
    (name : String) (rw rh : Int) :
    filterRule q (checkDimensions probe dims st fp name r rw rh) = filterRule q st := by
  unfold checkDimensions
  try dsimp only
  repeat' split
  all_goals first | rfl | simp [filterRule_log, hq]

theorem filterRule_iconSec_false (q : RuleId → Bool)
    (h1 : q .globalIconMissing = false) (h2 : q .globalIconExist = false)
    (w : AssetWorld) (e : AssetExpoCfg) (st : St) :
    filterRule q (iconSec false w e st) = filterRule q st := by
  unfold iconSec
  dsimp only
  repeat' split
  all_goals first | rfl | simp [filterRule_log, filterRule_exist, checkDim_false, h1, h2]

theorem filterRule_splashSec (q : RuleId → Bool)
    (h1 : q .splashMissing = false) (h2 : q .splashExist = false)
    (w : AssetWorld) (e : AssetExpoCfg) (st : St) :
    filterRule q (splashSec w e st) = filterRule q st := by
  unfold splashSec
  dsimp only
  repeat' split
  all_goals first | rfl | simp [filterRule_log, filterRule_exist, h1, h2]

theorem filterRule_adaptiveBg_false (q : RuleId → Bool)
    (h1 : q .adaptiveBgMissing = false) (h2 : q .adaptiveBgColor = false)
    (h3 : q .adaptiveBgImageExist = false)
    (fs : String → Bool) (dims : String → Except String (Int × Int))
    (color image : Option String) (st : St) :
    filterRule q (adaptiveBgCheck false fs dims color image st) = filterRule q st := by
  unfold adaptiveBgCheck
  dsimp only
  repeat' split
  all_goals first | rfl | simp [filterRule_log, filterRule_exist, checkDim_false, h1, h2, h3]

theorem filterRule_adaptiveSec_false (q : RuleId → Bool)
    (h1 : q .adaptiveNone = false) (h2 : q .adaptiveFgMissing = false)
    (h3 : q .adaptiveFgExist = false) (h4 : q .adaptiveBgMissing = false)
    (h5 : q .adaptiveBgColor = false) (h6 : q .adaptiveBgImageExist = false)
    (w : AssetWorld) (e : AssetExpoCfg) (st : St) :
    filterRule q (adaptiveSec false w e st) = filterRule q st := by
  unfold adaptiveSec
  dsimp only
  repeat' split
  all_goals simp [filterRule_adaptiveBg_false q h4 h5 h6, filterRule_log, filterRule_exist,
    checkDim_false, h1, h2, h3]

theorem filterRule_iosSec_false (q : RuleId → Bool) (h1 : q .iosIconExist = false)
    (w : AssetWorld) (e : AssetExpoCfg) (st : St) :
    filterRule q (iosSec false w e st) = filterRule q st := by
  unfold iosSec
  dsimp only
  repeat' split
  all_goals first | rfl | simp [filterRule_exist, checkDim_false, h1]

theorem runAssets_fst (probe : Bool) (w : AssetWorld) :
    (runAssets probe w).1 = resSt (runAssetsCore probe w) := by
  unfold runAssets resSt
  cases h : runAssetsCore probe w with
  | error e => obtain ⟨st, c⟩ := e; rfl
  | ok st => rfl

theorem filterRule_iconSec_rel (q : RuleId → Bool) (hd : q .globalIconDim = false)
    (pr ps : Bool) (w : AssetWorld) (e : AssetExpoCfg) {st su : St}
    (h : filterRule q st = filterRule q su) :
    filterRule q (iconSec pr w e st) = filterRule q (iconSec ps w e su) := by
  unfold iconSec
  dsimp only
  repeat' split
  all_goals simp [filterRule_log, filterRule_exist, filterRule_checkDim q hd, h]

theorem filterRule_splashSec_rel (q : RuleId → Bool) (w : AssetWorld) (e : AssetExpoCfg)
    {st su : St} (h : filterRule q st = filterRule q su) :
    filterRule q (splashSec w e st) = filterRule q (splashSec w e su) := by
  unfold splashSec
  dsimp only
  repeat' split
  all_goals simp [filterRule_log, filterRule_exist, h]

theorem filterRule_adaptiveBg_rel (q : RuleId → Bool) (hd : q .adaptiveBgImageDim = false)
    (pr ps : Bool) (fs : String → Bool) (dims : String → Except String (Int × Int))
    (color image : Option String) {st su : St} (h : filterRule q st = filterRule q su) :
    filterRule q (adaptiveBgCheck pr fs dims color image st) =
      filterRule q (adaptiveBgCheck ps fs dims color image su) := by
  unfold adaptiveBgCheck
  dsimp only
  repeat' split
  all_goals simp [filterRule_log, filterRule_exist, filterRule_checkDim q hd, h]

theorem filterRule_adaptiveSec_rel (q : RuleId → Bool)
    (hd1 : q .adaptiveFgDim = false) (hd2 : q .adaptiveBgImageDim = false)
    (pr ps : Bool) (w : AssetWorld) (e : AssetExpoCfg) {st su : St}
    (h : filterRule q st = filterRule q su) :
    filterRule q (adaptiveSec pr w e st) = filterRule q (adaptiveSec ps w e su) := by
  unfold adaptiveSec
  dsimp only
  repeat' split
  all_goals first
    | simp [filterRule_log, h]
    | (apply filterRule_adaptiveBg_rel q hd2
       simp [filterRule_log, filterRule_exist, filterRule_checkDim q hd1, h])

theorem filterRule_iosSec_rel (q : RuleId → Bool) (hd : q .iosIconDim = false)
    (pr ps : Bool) (w : AssetWorld) (e : AssetExpoCfg) {st su : St}
    (h : filterRule q st = filterRule q su) :
    filterRule q (iosSec pr w e st) = filterRule q (iosSec ps w e su) := by
  unfold iosSec
  dsimp only
  repeat' split
  all_goals simp [filterRule_exist, filterRule_checkDim q hd, h]

/-- C2 counterexample: in the direct-parse variant (`part_003`, cited by
the claim), an absent `android.targetSdkVersion` produces a WARN finding
("not explicitly set"), not the FAIL the claim states. -/
theorem C2_counterexample :
    (targetSdkCheck003 none st0).findings =
      [⟨.warn, .targetSdk, "targetSdkVersion not explicitly set. Expo will use the SDK default."⟩] ∧
    Severity.warn ≠ Severity.fail :=
  ⟨rfl, by decide⟩

/-- C2 (amended): both target-SDK rule variants FAIL on a nonzero value
below 35 (in particular 34) and PASS on a value of at least 35 (in
particular 35); on an absent value the compiled-resolve variant
(`part_001`) emits FAIL while the direct-parse variant (`part_003`)
emits WARN. -/
theorem C2_targetSdk_threshold (n m : Int) (st : St)
    (h0 : n ≠ 0) (hlt : n < 35) (hm : 35 ≤ m) :
    (targetSdkCheck003 (some n) st).findings = st.findings ++
      [⟨.fail, .targetSdk,
        "targetSdkVersion is " ++ toString n ++ ". API 35+ is mandatory per recent Play Store rules."⟩] ∧
    (targetSdkCheck001 (some n) st).findings = st.findings ++
      [⟨.fail, .targetSdk, "targetSdkVersion is " ++ toString n ++ ". API 35 is mandatory."⟩] ∧
    (targetSdkCheck003 (some m) st).findings = st.findings ++
      [⟨.pass, .targetSdk, "Valid targetSdkVersion: " ++ toString m⟩] ∧
    (targetSdkCheck001 (some m) st).findings = st.findings ++
      [⟨.pass, .targetSdk, "Valid targetSdkVersion: " ++ toString m⟩] ∧
    (targetSdkCheck003 none st).findings = st.findings ++
      [⟨.warn, .targetSdk, "targetSdkVersion not explicitly set. Expo will use the SDK default."⟩] ∧
    (targetSdkCheck001 none st).findings = st.findings ++
      [⟨.fail, .targetSdk, "targetSdkVersion is missing. API 35 is mandatory."⟩] := by
  have hm0 : ¬ m = 0 := by omega
  have hm35 : ¬ m < 35 := by omega
  refine ⟨?_, ?_, ?_, ?_, rfl, rfl⟩ <;>
    simp [targetSdkCheck003, targetSdkCheck001, logStatus, h0, hlt, hm0, hm35]

/-- Witness for C2 at the spec's own test values 34 and 35. -/
theorem C2_witness :
    (34 : Int) ≠ 0 ∧ (34 : Int) < 35 ∧ (35 : Int) ≤ 35 ∧
    (targetSdkCheck003 (some 34) st0).findings =
      [⟨.fail, .targetSdk, "targetSdkVersion is 34. API 35+ is mandatory per recent Play Store rules."⟩] ∧
    (targetSdkCheck001 (some 35) st0).findings =
      [⟨.pass, .targetSdk, "Valid targetSdkVersion: 35"⟩] := by
  refine ⟨by decide, by decide, by decide, ?_, ?_⟩
  · have h := (C2_targetSdk_threshold 34 35 st0 (by decide) (by decide) (by decide)).1
    simpa using h
  · have h := (C2_targetSdk_threshold 34 35 st0 (by decide) (by decide) (by decide)).2.2.2.1
    simpa using h

/-- C10: a `targetSdkVersion` of 0 is falsy in JavaScript, so both
variants take the value-absent branch (WARN "not explicitly set" in
`part_003`, FAIL "is missing" in `part_001`) instead of the
below-threshold branch that reports the numeric value. -/
theorem C10_zero_targetSdk_absent_branch :
    (targetSdkCheck003 (some 0) st0).findings =
      [⟨.warn, .targetSdk, "targetSdkVersion not explicitly set. Expo will use the SDK default."⟩] ∧
    (targetSdkCheck001 (some 0) st0).findings =
      [⟨.fail, .targetSdk, "targetSdkVersion is missing. API 35 is mandatory."⟩] :=
  ⟨rfl, rfl⟩

/-- C7: the Android identity rule FAILs on an absent package, FAILs with
a message naming the offending value on a package matching the reserved
case-insensitive pattern `(com|br).(example|test|demo).`, and PASSes on
any other non-empty package; `com.example.app` in particular FAILs with
the value in the message. -/
theorem C7_android_identity (p good : String) (st : St)
    (hp : invalidDomainTest p = true) (hp0 : p ≠ "")
    (hg : invalidDomainTest good = false) (hg0 : good ≠ "") :
    (packageCheck none st).findings =
      st.findings ++ [⟨.fail, .androidPackage, "Missing android.package."⟩] ∧
    (packageCheck (some p) st).findings =
      st.findings ++ [⟨.fail, .androidPackage, "Invalid/test android.package: " ++ p⟩] ∧
    (packageCheck (some good) st).findings =
      st.findings ++ [⟨.pass, .androidPackage, "Valid android.package: " ++ good⟩] ∧
    (packageCheck (some "com.example.app") st).findings =
      st.findings ++ [⟨.fail, .androidPackage, "Invalid/test android.package: com.example.app"⟩] := by
  have hex : invalidDomainTest "com.example.app" = true := by decide
  refine ⟨rfl, ?_, ?_, ?_⟩ <;>
    simp [packageCheck, logStatus, hp0, hg0, hp, hg, hex]

/-- Witness for C7: `com.example.app` is reserved, `com.acme.app` is not. -/
theorem C7_witness :
    invalidDomainTest "com.example.app" = true ∧ "com.example.app" ≠ "" ∧
    invalidDomainTest "com.acme.app" = false ∧ "com.acme.app" ≠ "" ∧
    (packageCheck (some "com.example.app") st0).findings =
      [⟨.fail, .androidPackage, "Invalid/test android.package: com.example.app"⟩] ∧
    (packageCheck (some "com.acme.app") st0).findings =
      [⟨.pass, .androidPackage, "Valid android.package: com.acme.app"⟩] := by
  have h := C7_android_identity "com.example.app" "com.acme.app" st0
    (by decide) (by decide) (by decide) (by decide)
  exact ⟨by decide, by decide, by decide, by decide, by simpa using h.2.2.2, by simpa using h.2.2.1⟩

/-- C8: the version-control cleanliness check never sets `hasFails` (so
it never contributes to a FAIL verdict); an unavailable or throwing
probe yields WARN, and a dirty working tree yields WARN. -/
theorem C8_vcs_never_fails (g : Option String) (s : String) (st : St)
    (hs : (trimChars s.data).length > 0) :
    (vcsCheck g st).hasFails = st.hasFails ∧
    (vcsCheck none st).findings = st.findings ++
      [⟨.warn, .gitStatus, "Could not check Git status. Ensure you are in a valid Git repository."⟩] ∧
    (vcsCheck (some s) st).findings = st.findings ++
      [⟨.warn, .gitStatus,
        "You have uncommitted Git changes. EAS Build uploads your committed code by default. Uncommitted changes might not be included in the build!"⟩] := by
  refine ⟨?_, rfl, ?_⟩
  · cases g with
    | none => simp [vcsCheck, logStatus]
    | some out =>
      by_cases h1 : (trimChars out.data).length > 0 <;> simp [vcsCheck, logStatus, h1]
  · simp [vcsCheck, logStatus, hs]

/-- `validateAppJson` on a present `expo` object emits exactly one
target-SDK finding. -/
theorem filterRule_validateAppJson_sdkLen (e : ExpoCfg) (st : St) :
    (filterRule (fun r => decide (r = .targetSdk)) (validateAppJson { expo := some e } st)).length =
      (filterRule (fun r => decide (r = .targetSdk)) st).length + 1 := by
  show (filterRule _ (newArchCheck _ (targetSdkCheck003 _ (runtimeCheck _ (schemeCheck _
    (bundleCheck _ (packageCheck _ st))))))).length = _
  rw [filterRule_newArchCheck _ rfl, filterRule_targetSdkCheck003_len _ rfl,
    filterRule_runtimeCheck _ rfl, filterRule_schemeCheck _ rfl,
    filterRule_bundleCheck _ rfl, filterRule_packageCheck _ rfl]

/-- C3 counterexample: a malformed `eas.json` is a ProfileMalformed
fatal precondition per the spec taxonomy, yet the run does not abort
before the Rule Catalog: a catalog (target-SDK) finding is emitted, the
parse failure is logged as an ordinary FAIL finding, and the run reaches
the summary (no early `process.exit`). -/
theorem C3_counterexample :
    (run003 w3).2.2 = false ∧
    (filterRule (fun r => decide (r = RuleId.targetSdk)) (run003 w3).1).length = 1 ∧
    ((run003 w3).1.findings.filter fun f =>
      decide (f.rule = RuleId.easJsonRead) && decide (f.severity = Severity.fail)).length = 1 ∧
    (run003 w3).2.1 = 1 := by
  exact ⟨rfl, by decide, by decide, rfl⟩

/-- C3 (amended): a missing/malformed `app.json` (ConfigMissing or
ConfigMalformed) aborts the run with status 1 before any configuration
rule executes — the findings are exactly the two environment PASSes and
the read-failure FAIL; each environment precondition (missing
`package.json`, missing `expo` dependency, missing `node_modules`)
likewise aborts immediately with status 1 and a single explanatory FAIL
as its last finding; a missing `eas.json` aborts during the foundation
checks, with the existence FAIL as its last finding and no further rule
findings; a malformed `eas.json` (ProfileMalformed), however, does not
abort: the configuration rules have already run (a target-SDK finding
is present), the parse failure is reported as an ordinary FAIL finding,
and the run ends with status 1 and no early exit. -/
theorem C3_fatal_preconditions (w v u1 u2 u3 u4 : World) (e : ExpoCfg) (aj : AppJson)
    (m n : String)
    (ha1 : w.packageJsonExists = true) (ha2 : w.pkgHasExpoDep = true)
    (ha3 : w.nodeModulesExists = true) (ha4 : w.appJson = .error m)
    (hb1 : v.packageJsonExists = true) (hb2 : v.pkgHasExpoDep = true)
    (hb3 : v.nodeModulesExists = true) (hb4 : v.appJson = .ok { expo := some e })
    (hb5 : v.easJsonExists = true) (hb6 : v.easJson = .error n)
    (hc1 : u1.packageJsonExists = false)
    (hd1 : u2.packageJsonExists = true) (hd2 : u2.pkgHasExpoDep = false)
    (he1 : u3.packageJsonExists = true) (he2 : u3.pkgHasExpoDep = true)
    (he3 : u3.nodeModulesExists = false)
    (hf1 : u4.packageJsonExists = true) (hf2 : u4.pkgHasExpoDep = true)
    (hf3 : u4.nodeModulesExists = true) (hf4 : u4.appJson = .ok aj)
    (hf5 : u4.easJsonExists = false) :
    (run003 w).2.2 = true ∧ (run003 w).2.1 = 1 ∧
    (run003 w).1.findings =
      [⟨.pass, .expoDep, "Expo project detected (found \"expo\" in package.json dependencies)."⟩,
       ⟨.pass, .nodeModules, "node_modules directory found."⟩,
       ⟨.fail, .appJsonRead, "Error reading app.json: " ++ m⟩] ∧
    (run003 v).2.2 = false ∧ (run003 v).2.1 = 1 ∧
    (filterRule (fun r => decide (r = .targetSdk)) (run003 v).1).length = 1 ∧
    filterRule (fun r => decide (r = .easJsonRead)) (run003 v).1 =
      [⟨.fail, .easJsonRead, "Error reading eas.json: " ++ n⟩] ∧
    (run003 u1).2.2 = true ∧ (run003 u1).2.1 = 1 ∧
    (run003 u1).1.findings =
      [⟨.fail, .pkgJson, "package.json not found. Are you in the right directory?"⟩] ∧
    (run003 u2).2.2 = true ∧ (run003 u2).2.1 = 1 ∧
    (run003 u2).1.findings =
      [⟨.fail, .expoDep, "This does not appear to be an Expo project. Missing \"expo\" in dependencies."⟩] ∧
    (run003 u3).2.2 = true ∧ (run003 u3).2.1 = 1 ∧
    (run003 u3).1.findings =
      [⟨.pass, .expoDep, "Expo project detected (found \"expo\" in package.json dependencies)."⟩,
       ⟨.fail, .nodeModules, "node_modules not found. Please run npm/yarn/bun install before running the preflight check."⟩] ∧
    (run003 u4).2.2 = true ∧ (run003 u4).2.1 = 1 ∧
    (run003 u4).1.findings =
      [⟨.pass, .expoDep, "Expo project detected (found \"expo\" in package.json dependencies)."⟩,
       ⟨.pass, .nodeModules, "node_modules directory found."⟩,
       ⟨.fail, .easExistsR, "eas.json not found! You must run \"eas build:configure\" first."⟩] := by
  simp only [run003, run003core, checkLevelZeroPointFive, checkLevelZeroBasics,
    ha1, ha2, ha3, ha4, hb1, hb2, hb3, hb4, hb5, hb6,
    hc1, hd1, hd2, he1, he2, he3, hf1, hf2, hf3, hf4, hf5,
    Bool.not_true, Bool.not_false, Bool.false_eq_true, if_false, eq_self_iff_true, if_true]
  refine ⟨by trivial, by trivial, by simp [logStatus, st0], by trivial, by simp [logStatus],
    ?_, ?_,
    by trivial, by trivial, by simp [logStatus, st0],
    by trivial, by trivial, by simp [logStatus, st0],
    by trivial, by trivial, by simp [logStatus, st0],
    by trivial, by trivial, by simp [logStatus, st0]⟩
  · rw [filterRule_log_neg _ rfl, filterRule_validateAppJson_sdkLen,
      filterRule_vcsCheck _ rfl, filterRule_lockfileCheck _ rfl,
      filterRule_projectIdCheck _ rfl, filterRule_log_neg _ rfl,
      filterRule_log_neg _ rfl, filterRule_log_neg _ rfl]
    rfl
  · rw [filterRule_log]
    rw [filterRule_validateAppJson _ rfl rfl rfl rfl rfl rfl rfl,
      filterRule_vcsCheck _ rfl, filterRule_lockfileCheck _ rfl,
      filterRule_projectIdCheck _ rfl, filterRule_log_neg _ rfl,
      filterRule_log_neg _ rfl, filterRule_log_neg _ rfl]
    rfl

/-- Witness for the amended C3 at six concrete worlds. -/
theorem C3_witness :
    (run003 w3a).2.2 = true ∧ (run003 w3a).2.1 = 1 ∧
    (run003 w3a).1.findings =
      [⟨.pass, .expoDep, "Expo project detected (found \"expo\" in package.json dependencies)."⟩,
       ⟨.pass, .nodeModules, "node_modules directory found."⟩,
       ⟨.fail, .appJsonRead, "Error reading app.json: " ++ "Unexpected end of JSON input"⟩] ∧
    (run003 w3).2.2 = false ∧ (run003 w3).2.1 = 1 ∧
    (filterRule (fun r => decide (r = .targetSdk)) (run003 w3).1).length = 1 ∧
    filterRule (fun r => decide (r = .easJsonRead)) (run003 w3).1 =
      [⟨.fail, .easJsonRead, "Error reading eas.json: " ++ "Unexpected token in JSON"⟩] ∧
    (run003 wEnv1).2.2 = true ∧ (run003 wEnv1).2.1 = 1 ∧
    (run003 wEnv1).1.findings =
      [⟨.fail, .pkgJson, "package.json not found. Are you in the right directory?"⟩] ∧
    (run003 wEnv2).2.2 = true ∧ (run003 wEnv2).2.1 = 1 ∧
    (run003 wEnv2).1.findings =
      [⟨.fail, .expoDep, "This does not appear to be an Expo project. Missing \"expo\" in dependencies."⟩] ∧
    (run003 wEnv3).2.2 = true ∧ (run003 wEnv3).2.1 = 1 ∧
    (run003 wEnv3).1.findings =
      [⟨.pass, .expoDep, "Expo project detected (found \"expo\" in package.json dependencies)."⟩,
       ⟨.fail, .nodeModules, "node_modules not found. Please run npm/yarn/bun install before running the preflight check."⟩] ∧
    (run003 wEasMissing).2.2 = true ∧ (run003 wEasMissing).2.1 = 1 ∧
    (run003 wEasMissing).1.findings =
      [⟨.pass, .expoDep, "Expo project detected (found \"expo\" in package.json dependencies)."⟩,
       ⟨.pass, .nodeModules, "node_modules directory found."⟩,
       ⟨.fail, .easExistsR, "eas.json not found! You must run \"eas build:configure\" first."⟩] :=
  C3_fatal_preconditions w3a w3 wEnv1 wEnv2 wEnv3 wEasMissing expo1 { expo := some expo1 }
    "Unexpected end of JSON input" "Unexpected token in JSON"
    rfl rfl rfl rfl rfl rfl rfl rfl rfl rfl rfl rfl rfl rfl rfl rfl rfl rfl rfl rfl rfl

/-- The single-finding normal form of `validateEasJson` when the
`production` profile is absent. -/
theorem validateEasJson_noProd (st : St) :
    validateEasJson { buildProduction := none } st =
      logStatus st .fail .prodProfile "\"build.production\" profile not found in eas.json." := rfl

/-- C4: when `eas.json` parses but lacks the `production` profile, the
profile-existence rule emits its FAIL, the profile-dependent rules
(auto-increment, env vars) emit nothing, and the exit status is 1. -/
theorem C4_missing_production_profile (w : World) (aj : AppJson)
    (h1 : w.packageJsonExists = true) (h2 : w.pkgHasExpoDep = true)
    (h3 : w.nodeModulesExists = true) (h4 : w.appJson = .ok aj)
    (h5 : w.easJsonExists = true) (h6 : w.easJson = .ok { buildProduction := none }) :
    (run003 w).2.1 = 1 ∧
    filterRule (fun r => decide (r = .prodProfile)) (run003 w).1 =
      [⟨.fail, .prodProfile, "\"build.production\" profile not found in eas.json."⟩] ∧
    filterRule (fun r => decide (r = .autoIncrement) || decide (r = .envVars)) (run003 w).1 = [] := by
  simp only [run003, run003core, checkLevelZeroPointFive, checkLevelZeroBasics,
    h1, h2, h3, h4, h5, h6, Bool.not_true, Bool.false_eq_true, if_false,
    validateEasJson_noProd]
  refine ⟨by simp [logStatus], ?_, ?_⟩
  · rw [filterRule_log]
    rw [filterRule_validateAppJson _ rfl rfl rfl rfl rfl rfl rfl,
      filterRule_vcsCheck _ rfl, filterRule_lockfileCheck _ rfl,
      filterRule_projectIdCheck _ rfl, filterRule_log_neg _ rfl,
      filterRule_log_neg _ rfl, filterRule_log_neg _ rfl]
    rfl
  · rw [filterRule_log_neg _ rfl,
      filterRule_validateAppJson _ rfl rfl rfl rfl rfl rfl rfl,
      filterRule_vcsCheck _ rfl, filterRule_lockfileCheck _ rfl,
      filterRule_projectIdCheck _ rfl, filterRule_log_neg _ rfl,
      filterRule_log_neg _ rfl, filterRule_log_neg _ rfl]
    rfl

/-- Witness for C4 at a concrete run. -/
theorem C4_witness :
    (run003 w4).2.1 = 1 ∧
    filterRule (fun r => decide (r = .prodProfile)) (run003 w4).1 =
      [⟨.fail, .prodProfile, "\"build.production\" profile not found in eas.json."⟩] ∧
    filterRule (fun r => decide (r = .autoIncrement) || decide (r = .envVars)) (run003 w4).1 = [] :=
  C4_missing_production_profile w4 { expo := some expo1 } rfl rfl rfl rfl rfl rfl

/-- Witness for C8 with a dirty `git status --porcelain` output. -/
theorem C8_witness :
    ((trimChars "M app.json".data).length > 0) ∧
    (vcsCheck (some "M app.json") st0).hasFails = st0.hasFails ∧
    (vcsCheck none st0).findings =
      [⟨.warn, .gitStatus, "Could not check Git status. Ensure you are in a valid Git repository."⟩] ∧
    (vcsCheck (some "M app.json") st0).findings =
      [⟨.warn, .gitStatus,
        "You have uncommitted Git changes. EAS Build uploads your committed code by default. Uncommitted changes might not be included in the build!"⟩] := by
  have h := C8_vcs_never_fails (some "M app.json") "M app.json" st0 (by decide)
  exact ⟨by decide, h.1, by simpa using h.2.1, by simpa using h.2.2⟩

/-- C5: when the dimension probe is unavailable, a run of the asset
checker emits exactly one probe-unavailable WARN, emits no
dimension finding at all (so no per-asset dimension FAIL), and its
existence findings are exactly those of the same run with the probe
available. -/
theorem C5_probe_unavailable (w : AssetWorld) :
    (filterRule (fun r => decide (r = .probeUnavailable)) (runAssets false w).1).length = 1 ∧
    filterRule dimRule (runAssets false w).1 = [] ∧
    filterRule exRule (runAssets false w).1 = filterRule exRule (runAssets true w).1 := by
  refine ⟨?_, ?_, ?_⟩
  · rw [runAssets_fst false w]
    unfold runAssetsCore
    simp only [Bool.false_eq_true, if_false]
    repeat' split
    all_goals dsimp only [resSt]
    all_goals first
      | rfl
      | (rw [filterRule_iosSec_false (fun r => decide (r = RuleId.probeUnavailable)) rfl,
          filterRule_adaptiveSec_false (fun r => decide (r = RuleId.probeUnavailable))
            rfl rfl rfl rfl rfl rfl,
          filterRule_splashSec (fun r => decide (r = RuleId.probeUnavailable)) rfl rfl,
          filterRule_iconSec_false (fun r => decide (r = RuleId.probeUnavailable)) rfl rfl]
         rfl)
  · rw [runAssets_fst false w]
    unfold runAssetsCore
    simp only [Bool.false_eq_true, if_false]
    repeat' split
    all_goals dsimp only [resSt]
    all_goals first
      | rfl
      | (rw [filterRule_iosSec_false dimRule rfl,
          filterRule_adaptiveSec_false dimRule rfl rfl rfl rfl rfl rfl,
          filterRule_splashSec dimRule rfl rfl,
          filterRule_iconSec_false dimRule rfl rfl]
         rfl)
  · rw [runAssets_fst false w, runAssets_fst true w]
    unfold runAssetsCore
    simp only [Bool.false_eq_true, if_false, if_true]
    repeat' split
    all_goals dsimp only [resSt]
    all_goals first
      | rfl
      | (apply filterRule_iosSec_rel exRule rfl
         apply filterRule_adaptiveSec_rel exRule rfl rfl
         apply filterRule_splashSec_rel exRule
         apply filterRule_iconSec_rel exRule rfl
         rfl)

/-- C6: with the adaptive icon present, the background step FAILs,
naming the background requirement, when neither `backgroundColor` nor
`backgroundImage` is set, and PASSes when `backgroundColor` is set. -/
theorem C6_adaptive_background (probe : Bool) (fs : String → Bool)
    (dims : String → Except String (Int × Int)) (st : St) (c : String) (img : Option String)
    (hc : c ≠ "") :
    (adaptiveBgCheck probe fs dims none none st).findings = st.findings ++
      [⟨.fail, .adaptiveBgMissing,
        "Android Adaptive Icon requires either a backgroundColor or a backgroundImage to prevent transparency issues (black backgrounds)."⟩] ∧
    (adaptiveBgCheck probe fs dims (some "") none st).findings = st.findings ++
      [⟨.fail, .adaptiveBgMissing,
        "Android Adaptive Icon requires either a backgroundColor or a backgroundImage to prevent transparency issues (black backgrounds)."⟩] ∧
    (adaptiveBgCheck probe fs dims (some c) img st).findings = st.findings ++
      [⟨.pass, .adaptiveBgColor, "Android Adaptive Icon background color is set: " ++ c⟩] := by
  refine ⟨rfl, rfl, ?_⟩
  simp [adaptiveBgCheck, logStatus, hc]

/-- Witness for C6 with a concrete background color. -/
theorem C6_witness :
    ("#FFFFFF" : String) ≠ "" ∧
    (adaptiveBgCheck false (fun _ => false) (fun _ => Except.error "no probe")
        none none st0).findings =
      [⟨.fail, .adaptiveBgMissing,
        "Android Adaptive Icon requires either a backgroundColor or a backgroundImage to prevent transparency issues (black backgrounds)."⟩] ∧
    (adaptiveBgCheck false (fun _ => false) (fun _ => Except.error "no probe")
        (some "#FFFFFF") none st0).findings =
      [⟨.pass, .adaptiveBgColor, "Android Adaptive Icon background color is set: #FFFFFF"⟩] := by
  have h := C6_adaptive_background false (fun _ => false) (fun _ => Except.error "no probe")
    st0 "#FFFFFF" none (by decide)
  exact ⟨by decide, by simpa using h.1, by simpa using h.2.2⟩

/-- C9: when both `backgroundColor` and `backgroundImage` are set, only
the background-color PASS finding is emitted; no existence or dimension
finding for the background image appears, whatever the filesystem and
probe report. -/
theorem C9_backgroundColor_shadows_image (probe : Bool) (fs : String → Bool)
    (dims : String → Except String (Int × Int)) (st : St) (c i : String) (hc : c ≠ "") :
    (adaptiveBgCheck probe fs dims (some c) (some i) st).findings = st.findings ++
      [⟨.pass, .adaptiveBgColor, "Android Adaptive Icon background color is set: " ++ c⟩] ∧
    filterRule (fun r => decide (r = .adaptiveBgImageExist) || decide (r = .adaptiveBgImageDim))
        (adaptiveBgCheck probe fs dims (some c) (some i) st) =
      filterRule (fun r => decide (r = .adaptiveBgImageExist) || decide (r = .adaptiveBgImageDim))
        st := by
  have he : adaptiveBgCheck probe fs dims (some c) (some i) st =
      logStatus st .pass .adaptiveBgColor
        ("Android Adaptive Icon background color is set: " ++ c) := by
    simp [adaptiveBgCheck, hc]
  rw [he]
  exact ⟨rfl, filterRule_log_neg _ rfl ..⟩

/-- Witness for C9: both background fields set, a filesystem on which
the image would fail its checks if consulted. -/
theorem C9_witness :
    ("#101010" : String) ≠ "" ∧
    (adaptiveBgCheck true (fun _ => false) (fun _ => Except.error "boom")
        (some "#101010") (some "./assets/bg.png") st0).findings =
      [⟨.pass, .adaptiveBgColor, "Android Adaptive Icon background color is set: #101010"⟩] ∧
    filterRule (fun r => decide (r = .adaptiveBgImageExist) || decide (r = .adaptiveBgImageDim))
      (adaptiveBgCheck true (fun _ => false) (fun _ => Except.error "boom")
        (some "#101010") (some "./assets/bg.png") st0) = [] := by
  have h := C9_backgroundColor_shadows_image true (fun _ => false) (fun _ => Except.error "boom")
    st0 "#101010" "./assets/bg.png" (by decide)
  exact ⟨by decide, by simpa using h.1, by simpa using h.2⟩

end Preflight
